import Mathlib

/-!
Verification of the ESPEasy P135 SCD4x plugin data structure
(`src/src/PluginStructs/P135_data_struct.cpp`).

The C++ file is shallowly embedded: each member function becomes a Lean
function from an explicit state (the `P135_data_struct` fields) and a
sensor-response oracle (the results the SCD4x driver would return on this
call) to a result record carrying the boolean return value, the successor
state, the list of sensor-bus operations performed (in order), any values
written to the host's output slots, the scheduler requests issued, and the
log lines emitted.

The companion header `P135_data_struct.h` is not part of the sources;
the pieces that live there (initial field values, the delay constants,
and the helpers `essentiallyEqual`, `parseString`, `parseStringKeepCase`,
`toString(float, 2)`) are modelled from the specification and marked as
such.  The build flag `P135_FEATURE_RESET_COMMANDS` is taken as enabled,
matching the configuration the specification describes.
-/

namespace P135

/-- Modelled from the spec: re-poll delay for normal periodic mode
(~5 s cadence); the numeric constant lives in the missing header. -/
def P135_NORMAL_MEASURE_TIME : Nat := 5000

/-- Modelled from the spec: re-poll delay for low-power periodic mode
(~30 s cadence); the numeric constant lives in the missing header. -/
def P135_LOW_POWER_MEASURE_TIME : Nat := 30000

/-- Modelled from the spec: re-poll delay after triggering a single-shot
measurement; the numeric constant lives in the missing header. -/
def P135_SINGLE_SHOT_MEASURE_TIME : Nat := 5000

/-- Modelled from the spec: the short "extended" delay used when a
completed read was expected but not ready; the numeric constant lives in
the missing header. -/
def P135_EXTEND_MEASURE_TIME : Nat := 1000

/-- Modelled from the spec: the fixed settle delay scheduled after
stopping periodic measurement; the numeric constant lives in the missing
header. -/
def P135_STOP_MEASUREMENT_DELAY : Nat := 500

/-- Modelled from the spec: the (unspecified) epsilon of the ESPEasy
float helper `essentiallyEqual`, as the denominator of `1 / 10^6`. -/
def P135_EPSILON_DEN : Nat := 1000000

/-- Modelled from the spec: `essentiallyEqual(a, b)` of the ESPEasy math
helpers (missing from the sources), on rationals in place of floats:
`|a - b| <= (|a| > |b| ? |b| : |a|) * epsilon`.  Written by integer
cross-multiplication over the common denominator `a.den * b.den` so that
it evaluates inside the kernel: with `d = a.num * b.den - b.num * a.den`
the condition is `|d| * (1/eps) <= min (|a.num| * b.den) (|b.num| * a.den)`. -/
def essentiallyEqual (a b : Rat) : Bool :=
  let d : Int := a.num * (b.den : Int) - b.num * (a.den : Int)
  let na : Nat := a.num.natAbs * b.den
  let nb : Nat := b.num.natAbs * a.den
  d.natAbs * P135_EPSILON_DEN ≤ (if na > nb then nb else na)

/-- Lower-case one ASCII character (the effect of `toLowerCase` on the
command tokens). -/
def lowerChar (c : Char) : Char :=
  if 65 ≤ c.toNat ∧ c.toNat ≤ 90 then Char.ofNat (c.toNat + 32) else c

/-- Lower-case a string character-by-character. -/
def lowerString (s : String) : String :=
  String.mk (s.data.map lowerChar)

/-- Split a character list at every comma (structural recursion, so that
concrete commands evaluate inside the kernel). -/
def splitOnComma : List Char → List (List Char)
  | [] => [[]]
  | c :: rest =>
    if c = ',' then [] :: splitOnComma rest
    else
      match splitOnComma rest with
      | [] => [[c]]
      | t :: ts => (c :: t) :: ts

/-- Modelled from the spec: ESPEasy's `parseString(string, n)` (missing
from the sources) — the n-th comma-delimited token, lower-cased. -/
def parseStringF (s : String) (n : Nat) : String :=
  lowerString (String.mk ((splitOnComma s.data).getD (n - 1) []))

/-- Modelled from the spec: ESPEasy's `parseStringKeepCase(string, n)`
(missing from the sources) — the n-th comma-delimited token with its
case kept (token 3 carries the case-sensitive confirmation code). -/
def parseStringKeepCaseF (s : String) (n : Nat) : String :=
  String.mk ((splitOnComma s.data).getD (n - 1) [])

/-- Exactly two decimal digits of a number below 100. -/
def twoDigits (n : Nat) : String :=
  String.mk [Nat.digitChar (n / 10 % 10), Nat.digitChar (n % 10)]

/-- `x * 100` rounded to the nearest integer, computed as
`⌊(200 * x.num + x.den) / (2 * x.den)⌋` by integer floor division (the
kernel-reducible form of `round (x * 100)`). -/
def roundHundredths (x : Rat) : Int :=
  Int.fdiv (200 * x.num + (x.den : Int)) (2 * (x.den : Int))

/-- Modelled from the spec: ESPEasy's `toString(float, 2)` (missing from
the sources) — fixed 2-decimal formatting, here of a rational. -/
def toString2 (x : Rat) : String :=
  let n : Int := roundHundredths x
  let m : Nat := n.natAbs
  (if n < 0 then "-" else "") ++ toString (m / 100) ++ "." ++ twoDigits (m % 100)

/-- One operation on the SCD4x sensor bus, in the order the driver calls
appear in the C++ file. -/
inductive BusOp where
  | beginSensor (skipStartMeasurement autoCalibrate : Bool)
  | getSensorAltitude
  | setSensorAltitude (alt : Nat)
  | getTemperatureOffset
  | setTemperatureOffset (t : Rat)
  | getSerialNumber
  | startPeriodicMeasurement
  | startLowPowerPeriodicMeasurement
  | measureSingleShot
  | readMeasurement
  | getCO2
  | getHumidity
  | getTemperature
  | stopPeriodicMeasurement
  | performFactoryReset
  | performSelfTest
  | persistSettings
  | getDataReadyStatus
  | getAutomaticSelfCalibrationEnabled
  deriving DecidableEq, Repr

/-- Log severity of the host logger; only the two levels used by the
file. -/
inductive LogLevel where
  | info
  | error
  deriving DecidableEq, Repr

/-- The responses the SCD4x driver would give to each bus operation
invoked during one call (the sensor-side oracle). -/
structure SensorIO where
  beginOk : Bool
  startPeriodicOk : Bool
  startLowPowerOk : Bool
  measureSingleShotOk : Bool
  readMeasurementOk : Bool
  stopPeriodicOk : Bool
  performFactoryResetOk : Bool
  performSelfTestOk : Bool
  persistSettingsOk : Bool
  serialOk : Bool
  serial : List Nat
  sensorAltitude : Nat
  temperatureOffset : Rat
  co2 : Nat
  humidity : Rat
  temperature : Rat
  dataReady : Bool
  selfCalEnabled : Bool
  deriving Repr

/-- The fields of `P135_data_struct`: the configuration set at
construction and the mutable runtime state.  The initial values of the
runtime flags are modelled from the spec (the member initializers live
in the missing header): `firstRead` starts `true` (first-read discard),
the other flags start `false`, the confirmation code starts empty. -/
structure P135State where
  sensorType : Nat
  altitude : Nat
  tempOffset : Rat
  autoCalibrate : Bool
  lowPowerMeasurement : Bool
  useSingleShot : Bool
  initialized : Bool
  firstRead : Bool
  singleShotStarted : Bool
  mustRunFactoryReset : Bool
  mustRunSelfTest : Bool
  factoryResetCode : String
  serialNumber : List Nat
  deriving Repr

/-- `P135_data_struct::startPeriodicMeasurements`: pick the configured
periodic mode; single-shot starts nothing (measurement starts at the
first `PLUGIN_READ`). Returns the success flag and the bus operations
performed. -/
def startPeriodicMeasurements (s : P135State) (io : SensorIO) : Bool × List BusOp :=
  if s.useSingleShot then
    (true, [])
  else if s.lowPowerMeasurement then
    (io.startLowPowerOk, [BusOp.startLowPowerPeriodicMeasurement])
  else
    (io.startPeriodicOk, [BusOp.startPeriodicMeasurement])

/-- Result of running the constructor. -/
structure ConstructResult where
  state : P135State
  ops : List BusOp
  deriving Repr

/-- `P135_data_struct::P135_data_struct`: allocate the driver, probe the
bus (`begin`), apply altitude / temperature-offset overrides only for
non-default values, capture the serial number, and start the configured
periodic mode.  `allocOk` models whether `new (std::nothrow)` succeeded.
The runtime flags take their header-modelled initial values. -/
def construct (sensorType altitude : Nat) (tempOffset : Rat)
    (autoCalibrate lowPowerMeasurement useSingleShot : Bool)
    (allocOk : Bool) (io : SensorIO) : ConstructResult :=
  let s0 : P135State :=
    { sensorType := sensorType
      altitude := altitude
      tempOffset := tempOffset
      autoCalibrate := autoCalibrate
      lowPowerMeasurement := lowPowerMeasurement
      useSingleShot := useSingleShot
      initialized := false
      firstRead := true
      singleShotStarted := false
      mustRunFactoryReset := false
      mustRunSelfTest := false
      factoryResetCode := ""
      serialNumber := List.replicate 13 0 }
  if allocOk then
    if io.beginOk then
      let altOps := if altitude ≠ 0 then [BusOp.setSensorAltitude altitude] else []
      let offOps :=
        if essentiallyEqual tempOffset 0 = false then [BusOp.setTemperatureOffset tempOffset] else []
      let serial := if io.serialOk then io.serial else List.replicate 13 0
      let s1 := { s0 with serialNumber := serial }
      let started := startPeriodicMeasurements s1 io
      { state := { s1 with initialized := started.1 }
        ops := [BusOp.beginSensor false autoCalibrate, BusOp.getSensorAltitude] ++ altOps
            ++ [BusOp.getTemperatureOffset] ++ offOps ++ [BusOp.getSerialNumber] ++ started.2 }
    else
      { state := s0, ops := [BusOp.beginSensor false autoCalibrate] }
  else
    { state := s0, ops := [] }

/-- Result of one `plugin_read` call. -/
structure ReadResult where
  success : Bool
  state : P135State
  ops : List BusOp
  uservar : Option (Nat × Rat × Rat)
  scheduled : List Nat
  deriving Repr

/-- The `getMeasure` flag of `plugin_read`: `false` exactly when a
single-shot measurement was just triggered successfully (the C++
condition `_useSingleShot && !singleShotStarted &&
scd4x->measureSingleShot()`, with C++ short-circuit evaluation). -/
def readGetMeasure (s : P135State) (io : SensorIO) : Bool :=
  !(s.useSingleShot && !s.singleShotStarted && io.measureSingleShotOk)

/-- The bus operations of the single-shot trigger attempt:
`measureSingleShot` is invoked only when the first two conjuncts hold. -/
def readShotOps (s : P135State) : List BusOp :=
  if s.useSingleShot && !s.singleShotStarted then [BusOp.measureSingleShot] else []

/-- The re-poll delay `plugin_read` computes when no measurement was
obtained. -/
def readTimerDelay (s : P135State) (getMeasure : Bool) : Nat :=
  if getMeasure && !s.firstRead then P135_EXTEND_MEASURE_TIME
  else if s.useSingleShot then P135_SINGLE_SHOT_MEASURE_TIME
  else if s.lowPowerMeasurement then P135_LOW_POWER_MEASURE_TIME
  else P135_NORMAL_MEASURE_TIME

/-- The uninitialized branch of `plugin_read` (under
`P135_FEATURE_RESET_COMMANDS`): the `mustRunFactoryReset` block followed
by the `mustRunSelfTest` block, each retrying the armed operation,
restarting periodic measurement on success and scheduling a read after
the settle delay.  Returns `(success, initialized, ops, scheduled)`. -/
def readMaintenance (s : P135State) (io : SensorIO) : Bool × Bool × List BusOp × List Nat :=
  let fr : Bool × Bool × List BusOp × List Nat :=
    if s.mustRunFactoryReset then
      if io.performFactoryResetOk then
        let started := startPeriodicMeasurements s io
        (true, started.1, BusOp.performFactoryReset :: started.2, [P135_STOP_MEASUREMENT_DELAY])
      else
        (false, s.initialized, [BusOp.performFactoryReset], [])
    else
      (false, s.initialized, [], [])
  if s.mustRunSelfTest then
    if io.performSelfTestOk then
      let started := startPeriodicMeasurements s io
      (true, started.1, fr.2.2.1 ++ BusOp.performSelfTest :: started.2,
        fr.2.2.2 ++ [P135_STOP_MEASUREMENT_DELAY])
    else
      (false, fr.2.1, fr.2.2.1 ++ [BusOp.performSelfTest], fr.2.2.2)
  else
    (fr.1, fr.2.1, fr.2.2.1, fr.2.2.2)

/-- `P135_data_struct::plugin_read`: attempt to produce one measurement
sample, or — when uninitialized — service an armed factory-reset /
self-test request. -/
def plugin_read (s : P135State) (io : SensorIO) : ReadResult :=
  if s.initialized then
    let getMeasure := readGetMeasure s io
    let shotOps := readShotOps s
    let singleShotStarted1 :=
      if s.useSingleShot && !s.singleShotStarted && io.measureSingleShotOk then true
      else s.singleShotStarted
    if getMeasure && io.readMeasurementOk then
      { success := !s.firstRead
        state := { s with singleShotStarted := false, firstRead := false }
        ops := shotOps ++ [BusOp.readMeasurement, BusOp.getCO2, BusOp.getHumidity,
          BusOp.getTemperature]
        uservar := some (io.co2, io.humidity, io.temperature)
        scheduled := [] }
    else
      let timerDelay := readTimerDelay s getMeasure
      { success := false
        state := { s with singleShotStarted := singleShotStarted1 }
        ops := shotOps ++ (if getMeasure then [BusOp.readMeasurement] else [])
        uservar := none
        scheduled := if timerDelay ≠ 0 then [timerDelay] else [] }
  else
    let m := readMaintenance s io
    { success := m.1
      state := { s with initialized := m.2.1 }
      ops := m.2.2.1
      uservar := none
      scheduled := m.2.2.2 }

/-- Result of one `plugin_write` call. -/
structure WriteResult where
  success : Bool
  state : P135State
  ops : List BusOp
  scheduled : List Nat
  logs : List (LogLevel × String)
  deriving Repr

/-- The confirmation-code derivation of the maintenance gate: `"Scd4x"`,
then four bytes of the cached serial number (indices 3,1,10,6 for
self-test, 1,3,7,10 for factory reset) when byte 10 is non-zero, else
the literal `"2022"`, then the suffix `"SelF"` / `"reseT"`. -/
def deriveCode (serial : List Nat) (doSelftest : Bool) : String :=
  ("Scd4x" ++
    (if serial.getD 10 0 ≠ 0 then
      (if doSelftest then
        String.mk [Char.ofNat (serial.getD 3 0), Char.ofNat (serial.getD 1 0),
          Char.ofNat (serial.getD 10 0), Char.ofNat (serial.getD 6 0)]
      else
        String.mk [Char.ofNat (serial.getD 1 0), Char.ofNat (serial.getD 3 0),
          Char.ofNat (serial.getD 7 0), Char.ofNat (serial.getD 10 0)])
    else "2022")) ++ (if doSelftest then "SelF" else "reseT")

/-- `P135_data_struct::plugin_write`: the `scd4x,...` command handler —
`storesettings` passes straight through to `persistSettings`;
`factoryreset` / `selftest` run the two-step confirm/execute gate
(under `P135_FEATURE_RESET_COMMANDS`). -/
def plugin_write (s : P135State) (io : SensorIO) (string : String) : WriteResult :=
  let command := parseStringF string 1
  if command = "scd4x" then
    let sub := parseStringF string 2
    let doSelftest := sub = "selftest"
    if sub = "storesettings" then
      { success := io.persistSettingsOk, state := s, ops := [BusOp.persistSettings],
        scheduled := [], logs := [] }
    else if sub = "factoryreset" ∨ doSelftest then
      if s.factoryResetCode = "" then
        let code := deriveCode s.serialNumber doSelftest
        { success := true
          state := { s with factoryResetCode := code }
          ops := []
          scheduled := []
          logs := [(LogLevel.error,
            "SCD4x: " ++ (if doSelftest then "Selftest code: " else "Factory reset code: ")
              ++ code)] }
      else
        let code := parseStringKeepCaseF string 3
        if code = s.factoryResetCode then
          let startLog : LogLevel × String :=
            (LogLevel.error,
              if doSelftest then "SCD4x: Selftest starting... (may take up to 11 seconds!)"
              else "SCD4x: Factory reset starting... (may take up to 2.5 seconds!)")
          if io.stopPeriodicOk then
            let armed :=
              { s with
                initialized := false
                firstRead := true
                mustRunSelfTest := if doSelftest then true else s.mustRunSelfTest
                mustRunFactoryReset := if doSelftest then s.mustRunFactoryReset else true
                factoryResetCode := "" }
            { success := true
              state := armed
              ops := [BusOp.stopPeriodicMeasurement]
              scheduled := [P135_STOP_MEASUREMENT_DELAY]
              logs := [startLog] }
          else
            { success := false
              state := { s with factoryResetCode := "" }
              ops := [BusOp.stopPeriodicMeasurement]
              scheduled := []
              logs := [startLog] }
        else
          { success := false, state := { s with factoryResetCode := "" }, ops := [],
            scheduled := [], logs := [] }
    else
      { success := false, state := s, ops := [], scheduled := [], logs := [] }
  else
    { success := false, state := s, ops := [], scheduled := [], logs := [] }

/-- Result of one `plugin_get_config_value` call: the boolean return, the
(in-out) string parameter after the call, and the bus operations. -/
structure ConfigResult where
  success : Bool
  out : String
  ops : List BusOp
  deriving Repr

/-- `P135_data_struct::plugin_get_config_value`: the four query keywords;
an unrecognized keyword returns `false` and leaves the string untouched. -/
def plugin_get_config_value (io : SensorIO) (string : String) : ConfigResult :=
  let var := parseStringF string 1
  if var = "getaltitude" then
    { success := true, out := toString io.sensorAltitude, ops := [BusOp.getSensorAltitude] }
  else if var = "gettempoffset" then
    { success := true, out := toString2 io.temperatureOffset,
      ops := [BusOp.getTemperatureOffset] }
  else if var = "getdataready" then
    { success := true, out := if io.dataReady then "1" else "0",
      ops := [BusOp.getDataReadyStatus] }
  else if var = "getselfcalibration" then
    { success := true, out := if io.selfCalEnabled then "1" else "0",
      ops := [BusOp.getAutomaticSelfCalibrationEnabled] }
  else
    { success := false, out := string, ops := [] }

/-- One host call into the plugin (the calls that can change state). -/
inductive Call where
  | read (io : SensorIO)
  | write (io : SensorIO) (str : String)

/-- Successor state of one call. -/
def stepState (s : P135State) : Call → P135State
  | Call.read io => (plugin_read s io).state
  | Call.write io str => (plugin_write s io str).state

/-- Bus operations performed by one call. -/
def stepOps (s : P135State) : Call → List BusOp
  | Call.read io => (plugin_read s io).ops
  | Call.write io str => (plugin_write s io str).ops

/-- The state after the first `n` calls of a trace. -/
def runN (s0 : P135State) (cs : List Call) (n : Nat) : P135State :=
  (cs.take n).foldl stepState s0

/-! ### Concrete fixtures used by the witnesses -/

/-- A sensor oracle in which every bus operation succeeds and no serial
number was captured. -/
def ioW : SensorIO :=
  { beginOk := true, startPeriodicOk := true, startLowPowerOk := true,
    measureSingleShotOk := true, readMeasurementOk := true, stopPeriodicOk := true,
    performFactoryResetOk := true, performSelfTestOk := true, persistSettingsOk := true,
    serialOk := false, serial := [], sensorAltitude := 25, temperatureOffset := mkRat 5 4,
    co2 := 400, humidity := mkRat 50 1, temperature := mkRat 21 1, dataReady := true,
    selfCalEnabled := true }

/-- A sensor oracle whose bus probe (`begin`) fails. -/
def ioBad : SensorIO := { ioW with beginOk := false }

/-- A sensor oracle whose `stopPeriodicMeasurement` fails. -/
def ioNoStop : SensorIO := { ioW with stopPeriodicOk := false }

/-- The state of a handle constructed in normal periodic mode with an
all-success sensor. -/
def sW : P135State := (construct 0 0 (mkRat 0 1) true false false true ioW).state

/-- The state of a handle whose sensor was not detected at construction. -/
def sBad : P135State := (construct 0 0 (mkRat 0 1) true false false true ioBad).state

/-! ### The claims -/

/-- C7: at construction (with the driver allocated and the bus probe
succeeding), `setSensorAltitude` is invoked if and only if the configured
altitude is non-zero, and `setTemperatureOffset` is invoked if and only
if the configured offset is not `essentiallyEqual` to zero; a zero /
near-zero configured value leaves the sensor's previous value untouched. -/
theorem claim_C7_construct_overrides (sensorType altitude : Nat) (tempOffset : Rat)
    (autoCalibrate lowPowerMeasurement useSingleShot : Bool) (io : SensorIO)
    (hbegin : io.beginOk = true) :
    (BusOp.setSensorAltitude altitude ∈
        (construct sensorType altitude tempOffset autoCalibrate lowPowerMeasurement
          useSingleShot true io).ops ↔ altitude ≠ 0) ∧
    (BusOp.setTemperatureOffset tempOffset ∈
        (construct sensorType altitude tempOffset autoCalibrate lowPowerMeasurement
          useSingleShot true io).ops ↔ essentiallyEqual tempOffset 0 = false) := by
  by_cases ha : altitude = 0 <;>
    by_cases he : essentiallyEqual tempOffset 0 = false <;>
      cases useSingleShot <;> cases lowPowerMeasurement <;>
        simp [construct, startPeriodicMeasurements, hbegin, ha, he]

/-- C7 witness: with altitude 25 and offset 5/4 both overrides happen. -/
theorem claim_C7_witness :
    BusOp.setSensorAltitude 25 ∈
        (construct 0 25 (mkRat 5 4) true false false true ioW).ops ∧
    BusOp.setTemperatureOffset (mkRat 5 4) ∈
        (construct 0 25 (mkRat 5 4) true false false true ioW).ops :=
  ⟨((claim_C7_construct_overrides 0 25 (mkRat 5 4) true false false ioW rfl).1).mpr
      (by decide),
    ((claim_C7_construct_overrides 0 25 (mkRat 5 4) true false false ioW rfl).2).mpr
      (by decide)⟩

/-- C5: a `scd4x,factoryreset` / `scd4x,selftest` invocation while no
confirmation code is on file derives the code deterministically from
fixed bytes of the cached serial number (bytes 1,3,7,10 for factory
reset, bytes 3,1,10,6 for self-test, falling back to the literal
`"2022"` middle when no serial number was captured), stores it as the
pending code, emits it in an error-level log line, and returns success
with no bus operation performed. -/
theorem claim_C5_gate_first_invocation (s : P135State) (io : SensorIO) (str : String)
    (h1 : parseStringF str 1 = "scd4x")
    (hcode : s.factoryResetCode = "") :
    (parseStringF str 2 = "factoryreset" →
      plugin_write s io str =
        { success := true
          state := { s with factoryResetCode := deriveCode s.serialNumber false }
          ops := []
          scheduled := []
          logs := [(LogLevel.error,
            "SCD4x: Factory reset code: " ++ deriveCode s.serialNumber false)] }) ∧
    (parseStringF str 2 = "selftest" →
      plugin_write s io str =
        { success := true
          state := { s with factoryResetCode := deriveCode s.serialNumber true }
          ops := []
          scheduled := []
          logs := [(LogLevel.error,
            "SCD4x: Selftest code: " ++ deriveCode s.serialNumber true)] }) ∧
    (s.serialNumber.getD 10 0 ≠ 0 →
      deriveCode s.serialNumber false =
        ("Scd4x" ++ String.mk [Char.ofNat (s.serialNumber.getD 1 0),
          Char.ofNat (s.serialNumber.getD 3 0), Char.ofNat (s.serialNumber.getD 7 0),
          Char.ofNat (s.serialNumber.getD 10 0)]) ++ "reseT" ∧
      deriveCode s.serialNumber true =
        ("Scd4x" ++ String.mk [Char.ofNat (s.serialNumber.getD 3 0),
          Char.ofNat (s.serialNumber.getD 1 0), Char.ofNat (s.serialNumber.getD 10 0),
          Char.ofNat (s.serialNumber.getD 6 0)]) ++ "SelF") ∧
    (s.serialNumber.getD 10 0 = 0 →
      deriveCode s.serialNumber false = "Scd4x" ++ "2022" ++ "reseT" ∧
      deriveCode s.serialNumber true = "Scd4x" ++ "2022" ++ "SelF") := by
  refine ⟨fun h2 => by simp [plugin_write, h1, h2, hcode],
    fun h2 => by simp [plugin_write, h1, h2, hcode],
    fun hser => by
      simp only [List.getD_eq_getElem?_getD] at hser
      simp [deriveCode, hser],
    fun hser => by
      simp only [List.getD_eq_getElem?_getD] at hser
      simp [deriveCode, hser]⟩

/-- C5 witness: with no captured serial number, `scd4x,factoryreset`
stores and logs the fallback code `Scd4x2022reseT` and performs no bus
operation. -/
theorem claim_C5_witness :
    plugin_write sW ioW "scd4x,factoryreset" =
      { success := true
        state := { sW with factoryResetCode := deriveCode sW.serialNumber false }
        ops := []
        scheduled := []
        logs := [(LogLevel.error,
          "SCD4x: Factory reset code: " ++ deriveCode sW.serialNumber false)] } :=
  (claim_C5_gate_first_invocation sW ioW "scd4x,factoryreset" (by decide) (by decide)).1
    (by decide)

/-- C1: second invocation of `scd4x,factoryreset` / `scd4x,selftest`
with a confirmation code on file.  The case-kept third token is compared
against the stored code; on a match `stopPeriodicMeasurement` is the
only bus operation, and if it succeeds the handle is marked
uninitialized, the first-read-discard flag is armed, the matching
pending flag is set, a re-read after the settle delay is scheduled and
the call succeeds; if stopping fails the call fails; on a mismatch the
call fails with no bus operation.  In every case the stored code is
cleared. -/
theorem claim_C1_gate_second_invocation (s : P135State) (io : SensorIO) (str : String)
    (h1 : parseStringF str 1 = "scd4x")
    (h2 : parseStringF str 2 = "factoryreset" ∨ parseStringF str 2 = "selftest")
    (hcode : s.factoryResetCode ≠ "") :
    (plugin_write s io str).state.factoryResetCode = "" ∧
    (parseStringKeepCaseF str 3 = s.factoryResetCode →
      (plugin_write s io str).ops = [BusOp.stopPeriodicMeasurement] ∧
      (io.stopPeriodicOk = true →
        (plugin_write s io str).success = true ∧
        (plugin_write s io str).state.initialized = false ∧
        (plugin_write s io str).state.firstRead = true ∧
        (plugin_write s io str).scheduled = [P135_STOP_MEASUREMENT_DELAY] ∧
        (parseStringF str 2 = "factoryreset" →
          (plugin_write s io str).state.mustRunFactoryReset = true ∧
          (plugin_write s io str).state.mustRunSelfTest = s.mustRunSelfTest) ∧
        (parseStringF str 2 = "selftest" →
          (plugin_write s io str).state.mustRunSelfTest = true ∧
          (plugin_write s io str).state.mustRunFactoryReset = s.mustRunFactoryReset)) ∧
      (io.stopPeriodicOk = false →
        (plugin_write s io str).success = false ∧
        (plugin_write s io str).scheduled = [])) ∧
    (parseStringKeepCaseF str 3 ≠ s.factoryResetCode →
      (plugin_write s io str).success = false ∧
      (plugin_write s io str).ops = [] ∧
      (plugin_write s io str).state =
        { s with factoryResetCode := "" }) := by
  rcases h2 with h2 | h2 <;>
    by_cases hm : parseStringKeepCaseF str 3 = s.factoryResetCode <;>
      cases hstop : io.stopPeriodicOk <;>
        simp [plugin_write, h1, h2, hcode, hm, hstop]

/-- C1 witness: instantiated at a state holding code `Scd4x2022reseT`,
an all-success sensor and a matching confirm command. -/
theorem claim_C1_witness :
    (plugin_write (plugin_write sW ioW "scd4x,factoryreset").state ioW
        "scd4x,factoryreset,Scd4x2022reseT").state.factoryResetCode = "" :=
  (claim_C1_gate_second_invocation (plugin_write sW ioW "scd4x,factoryreset").state ioW
    "scd4x,factoryreset,Scd4x2022reseT" (by decide) (Or.inl (by decide)) (by decide)).1

/-- C10: on the confirming invocation the armed operation is determined
solely by the sub-command of that invocation — any state with a matching
stored code (regardless of which command generated it) arms self-test
under `scd4x,selftest` and factory reset under `scd4x,factoryreset`. -/
theorem claim_C10_arming_follows_subcommand (s : P135State) (io : SensorIO) (str : String)
    (h1 : parseStringF str 1 = "scd4x")
    (hcode : s.factoryResetCode ≠ "")
    (hm : parseStringKeepCaseF str 3 = s.factoryResetCode)
    (hstop : io.stopPeriodicOk = true) :
    (parseStringF str 2 = "selftest" →
      (plugin_write s io str).state.mustRunSelfTest = true ∧
      (plugin_write s io str).state.mustRunFactoryReset = s.mustRunFactoryReset) ∧
    (parseStringF str 2 = "factoryreset" →
      (plugin_write s io str).state.mustRunFactoryReset = true ∧
      (plugin_write s io str).state.mustRunSelfTest = s.mustRunSelfTest) := by
  constructor <;> intro h2 <;> simp [plugin_write, h1, h2, hcode, hm, hstop]

/-- C10 witness: a code generated by `scd4x,factoryreset`, echoed back to
`scd4x,selftest`, arms the self-test and not the factory reset. -/
theorem claim_C10_witness :
    (plugin_write (plugin_write sW ioW "scd4x,factoryreset").state ioW
        "scd4x,selftest,Scd4x2022reseT").state.mustRunSelfTest = true ∧
    (plugin_write (plugin_write sW ioW "scd4x,factoryreset").state ioW
        "scd4x,selftest,Scd4x2022reseT").state.mustRunFactoryReset = false :=
  ⟨((claim_C10_arming_follows_subcommand (plugin_write sW ioW "scd4x,factoryreset").state
      ioW "scd4x,selftest,Scd4x2022reseT" (by decide) (by decide) (by decide) rfl).1
        (by decide)).1,
    (((claim_C10_arming_follows_subcommand (plugin_write sW ioW "scd4x,factoryreset").state
      ioW "scd4x,selftest,Scd4x2022reseT" (by decide) (by decide) (by decide) rfl).1
        (by decide)).2).trans (by decide)⟩

/-! ### Helper lemmas about the bus operations of each path -/

/-- The operations of `startPeriodicMeasurements` are start operations. -/
theorem startPeriodicMeasurements_ops_spec (s : P135State) (io : SensorIO) :
    ∀ op ∈ (startPeriodicMeasurements s io).2,
      op = BusOp.startPeriodicMeasurement ∨ op = BusOp.startLowPowerPeriodicMeasurement := by
  cases h1 : s.useSingleShot <;> cases h2 : s.lowPowerMeasurement <;>
    simp [startPeriodicMeasurements, h1, h2]

/-- The operations of the maintenance branch are reset / self-test /
start operations. -/
theorem readMaintenance_ops_spec (s : P135State) (io : SensorIO) :
    ∀ op ∈ (readMaintenance s io).2.2.1,
      op = BusOp.performFactoryReset ∨ op = BusOp.performSelfTest ∨
      op = BusOp.startPeriodicMeasurement ∨ op = BusOp.startLowPowerPeriodicMeasurement := by
  intro op hop
  cases h1 : s.mustRunFactoryReset <;> cases h2 : io.performFactoryResetOk <;>
    cases h3 : s.mustRunSelfTest <;> cases h4 : io.performSelfTestOk <;>
      cases h5 : s.useSingleShot <;> cases h6 : s.lowPowerMeasurement <;>
        simp [readMaintenance, startPeriodicMeasurements, h1, h2, h3, h4, h5, h6] at hop <;>
          tauto

/-- `performFactoryReset` appears in the maintenance branch only when it
is armed. -/
theorem readMaintenance_factoryReset_armed (s : P135State) (io : SensorIO)
    (h : BusOp.performFactoryReset ∈ (readMaintenance s io).2.2.1) :
    s.mustRunFactoryReset = true := by
  by_contra hfr
  rw [Bool.not_eq_true] at hfr
  cases h3 : s.mustRunSelfTest <;> cases h4 : io.performSelfTestOk <;>
    cases h5 : s.useSingleShot <;> cases h6 : s.lowPowerMeasurement <;>
      simp [readMaintenance, startPeriodicMeasurements, hfr, h3, h4, h5, h6] at h

/-- `performSelfTest` appears in the maintenance branch only when it is
armed. -/
theorem readMaintenance_selfTest_armed (s : P135State) (io : SensorIO)
    (h : BusOp.performSelfTest ∈ (readMaintenance s io).2.2.1) :
    s.mustRunSelfTest = true := by
  by_contra hst
  rw [Bool.not_eq_true] at hst
  cases h1 : s.mustRunFactoryReset <;> cases h2 : io.performFactoryResetOk <;>
    cases h5 : s.useSingleShot <;> cases h6 : s.lowPowerMeasurement <;>
      simp [readMaintenance, startPeriodicMeasurements, hst, h1, h2, h5, h6] at h

/-- C2: on an initialized handle with the first-read-discard flag set,
the first `plugin_read` in which `readMeasurement` is attempted and
succeeds writes the three output slots but returns failure and clears the
flag; any later successful read (flag cleared) writes the slots and
returns success; and calls in which no measurement is obtained change
neither the flag nor the initialized bit. -/
theorem claim_C2_first_read_discarded (s : P135State) (io : SensorIO)
    (hi : s.initialized = true) (hf : s.firstRead = true)
    (hgm : readGetMeasure s io = true) (hread : io.readMeasurementOk = true) :
    (plugin_read s io).uservar = some (io.co2, io.humidity, io.temperature) ∧
    (plugin_read s io).success = false ∧
    (plugin_read s io).state.firstRead = false ∧
    (plugin_read s io).state.initialized = true ∧
    (∀ (s' : P135State) (io' : SensorIO), s'.initialized = true → s'.firstRead = false →
      readGetMeasure s' io' = true → io'.readMeasurementOk = true →
      (plugin_read s' io').uservar = some (io'.co2, io'.humidity, io'.temperature) ∧
      (plugin_read s' io').success = true) ∧
    (∀ (s' : P135State) (io' : SensorIO), s'.initialized = true →
      ¬(readGetMeasure s' io' = true ∧ io'.readMeasurementOk = true) →
      (plugin_read s' io').state.firstRead = s'.firstRead ∧
      (plugin_read s' io').state.initialized = true ∧
      (plugin_read s' io').uservar = none ∧
      (plugin_read s' io').success = false) := by
  refine ⟨?_, ?_, ?_, ?_, ?_, ?_⟩
  · simp [plugin_read, hi, hgm, hread]
  · simp [plugin_read, hi, hgm, hread, hf]
  · simp [plugin_read, hi, hgm, hread]
  · simp [plugin_read, hi, hgm, hread]
  · intro s' io' hi' hf' hgm' hread'
    constructor <;> simp [plugin_read, hi', hgm', hread', hf']
  · intro s' io' hi' hfail
    cases hgm' : readGetMeasure s' io' <;> cases hread' : io'.readMeasurementOk <;>
      simp [plugin_read, hi', hgm', hread'] at hfail ⊢

/-- C2 witness: on the freshly constructed normal-mode handle the first
successful read fails, the second succeeds. -/
theorem claim_C2_witness :
    (plugin_read sW ioW).success = false ∧
    (plugin_read (plugin_read sW ioW).state ioW).success = true :=
  ⟨(claim_C2_first_read_discarded sW ioW (by decide) (by decide) (by decide) rfl).2.1,
    ((claim_C2_first_read_discarded sW ioW (by decide) (by decide) (by decide)
        rfl).2.2.2.2.1 (plugin_read sW ioW).state ioW (by decide) (by decide) (by decide)
        rfl).2⟩

/-- C6: a `plugin_read` on an initialized single-shot handle with no
shot pending triggers the single-shot bus operation, marks the shot
pending, attempts no `readMeasurement` and returns failure with no
sample; and no `plugin_read` on any handle with a shot pending issues
another single-shot request. -/
theorem claim_C6_single_shot_trigger (s : P135State) (io : SensorIO)
    (hi : s.initialized = true) (hss : s.useSingleShot = true)
    (hns : s.singleShotStarted = false) (hok : io.measureSingleShotOk = true) :
    (plugin_read s io).success = false ∧
    (plugin_read s io).state.singleShotStarted = true ∧
    (plugin_read s io).uservar = none ∧
    BusOp.measureSingleShot ∈ (plugin_read s io).ops ∧
    BusOp.readMeasurement ∉ (plugin_read s io).ops ∧
    (∀ (s' : P135State) (io' : SensorIO), s'.singleShotStarted = true →
      BusOp.measureSingleShot ∉ (plugin_read s' io').ops) := by
  have hgm : readGetMeasure s io = false := by
    simp [readGetMeasure, hss, hns, hok]
  refine ⟨?_, ?_, ?_, ?_, ?_, ?_⟩
  · simp [plugin_read, hi, hgm]
  · simp [plugin_read, hi, hgm, hss, hns, hok]
  · simp [plugin_read, hi, hgm]
  · simp [plugin_read, readShotOps, hi, hgm, hss, hns]
  · simp [plugin_read, readShotOps, hi, hgm, hss, hns]
  · intro s' io' hpend hmem
    by_cases hi' : s'.initialized = true
    · have hso : readShotOps s' = [] := by simp [readShotOps, hpend]
      cases hc : (readGetMeasure s' io' && io'.readMeasurementOk) <;>
        simp [plugin_read, hi', hso, hc] at hmem
    · rw [Bool.not_eq_true] at hi'
      simp [plugin_read, hi'] at hmem
      rcases readMaintenance_ops_spec s' io' _ hmem with h | h | h | h <;> simp at h

/-- C6 witness: instantiated on a single-shot handle with an
all-success sensor. -/
theorem claim_C6_witness :
    (plugin_read (construct 0 0 (mkRat 0 1) true false true true ioW).state ioW).success
        = false ∧
    (plugin_read (construct 0 0 (mkRat 0 1) true false true
        true ioW).state ioW).state.singleShotStarted = true :=
  ⟨(claim_C6_single_shot_trigger (construct 0 0 (mkRat 0 1) true false true true ioW).state
      ioW (by decide) (by decide) (by decide) rfl).1,
    (claim_C6_single_shot_trigger (construct 0 0 (mkRat 0 1) true false true true ioW).state
      ioW (by decide) (by decide) (by decide) rfl).2.1⟩

/-- C8: when an initialized `plugin_read` obtains no measurement it
schedules exactly one re-poll, with a non-zero delay: the extended delay
when a completed read was expected (no single-shot was just triggered)
and the first read has already occurred, else the delay of the
configured mode. -/
theorem claim_C8_repoll_delay (s : P135State) (io : SensorIO)
    (hi : s.initialized = true)
    (hfail : readGetMeasure s io = false ∨ io.readMeasurementOk = false) :
    (plugin_read s io).scheduled = [readTimerDelay s (readGetMeasure s io)] ∧
    readTimerDelay s (readGetMeasure s io) ≠ 0 ∧
    (readGetMeasure s io = true → s.firstRead = false →
      readTimerDelay s (readGetMeasure s io) = P135_EXTEND_MEASURE_TIME) ∧
    (readGetMeasure s io = false ∨ s.firstRead = true →
      (s.useSingleShot = true →
        readTimerDelay s (readGetMeasure s io) = P135_SINGLE_SHOT_MEASURE_TIME) ∧
      (s.useSingleShot = false → s.lowPowerMeasurement = true →
        readTimerDelay s (readGetMeasure s io) = P135_LOW_POWER_MEASURE_TIME) ∧
      (s.useSingleShot = false → s.lowPowerMeasurement = false →
        readTimerDelay s (readGetMeasure s io) = P135_NORMAL_MEASURE_TIME)) := by
  cases hgm : readGetMeasure s io <;> cases hread : io.readMeasurementOk <;>
    cases hfr : s.firstRead <;> cases hss : s.useSingleShot <;>
      cases hlp : s.lowPowerMeasurement <;>
        simp [hgm, hread, hfr] at hfail ⊢ <;>
          simp [plugin_read, readTimerDelay, hi, hgm, hread, hfr, hss, hlp,
            P135_EXTEND_MEASURE_TIME, P135_SINGLE_SHOT_MEASURE_TIME,
            P135_LOW_POWER_MEASURE_TIME, P135_NORMAL_MEASURE_TIME]

/-- C8 witness: a not-ready normal-mode read past the first read gets
the extended delay. -/
theorem claim_C8_witness :
    (plugin_read (plugin_read sW ioW).state { ioW with readMeasurementOk := false }).scheduled
      = [readTimerDelay (plugin_read sW ioW).state
          (readGetMeasure (plugin_read sW ioW).state
            { ioW with readMeasurementOk := false })] :=
  (claim_C8_repoll_delay (plugin_read sW ioW).state { ioW with readMeasurementOk := false }
    (by decide) (Or.inr rfl)).1

/-- The fractional part printed by `toString2` always has exactly two
digits. -/
theorem twoDigits_length (n : Nat) : (twoDigits n).length = 2 := rfl

/-- C9: `plugin_get_config_value` answers `getaltitude` with the
sensor's altitude, `gettempoffset` with the offset in fixed 2-decimal
formatting, `getdataready` and `getselfcalibration` with `1`/`0`
booleans, each successfully; any other keyword fails and leaves the
string unchanged. -/
theorem claim_C9_config_query (io : SensorIO) (str : String) :
    (parseStringF str 1 = "getaltitude" →
      plugin_get_config_value io str =
        { success := true, out := toString io.sensorAltitude,
          ops := [BusOp.getSensorAltitude] }) ∧
    (parseStringF str 1 = "gettempoffset" →
      plugin_get_config_value io str =
        { success := true, out := toString2 io.temperatureOffset,
          ops := [BusOp.getTemperatureOffset] } ∧
      ∃ pre : String,
        toString2 io.temperatureOffset =
          pre ++ "." ++ twoDigits ((roundHundredths io.temperatureOffset).natAbs % 100) ∧
        (twoDigits ((roundHundredths io.temperatureOffset).natAbs % 100)).length = 2) ∧
    (parseStringF str 1 = "getdataready" →
      plugin_get_config_value io str =
        { success := true, out := if io.dataReady then "1" else "0",
          ops := [BusOp.getDataReadyStatus] }) ∧
    (parseStringF str 1 = "getselfcalibration" →
      plugin_get_config_value io str =
        { success := true, out := if io.selfCalEnabled then "1" else "0",
          ops := [BusOp.getAutomaticSelfCalibrationEnabled] }) ∧
    (parseStringF str 1 ≠ "getaltitude" → parseStringF str 1 ≠ "gettempoffset" →
      parseStringF str 1 ≠ "getdataready" → parseStringF str 1 ≠ "getselfcalibration" →
      plugin_get_config_value io str = { success := false, out := str, ops := [] }) := by
  refine ⟨fun h => by simp [plugin_get_config_value, h],
    fun h => ⟨by simp [plugin_get_config_value, h], ?_⟩,
    fun h => by simp [plugin_get_config_value, h],
    fun h => by simp [plugin_get_config_value, h],
    fun h1 h2 h3 h4 => by simp [plugin_get_config_value, h1, h2, h3, h4]⟩
  exact ⟨(if roundHundredths io.temperatureOffset < 0 then "-" else "") ++
    toString ((roundHundredths io.temperatureOffset).natAbs / 100),
    by simp [toString2], twoDigits_length _⟩

/-- C9 witness: at keyword `gettempoffset` with offset 5/4 the call
succeeds with output `1.25`. -/
theorem claim_C9_witness :
    plugin_get_config_value ioW "gettempoffset" =
      { success := true, out := toString2 ioW.temperatureOffset,
        ops := [BusOp.getTemperatureOffset] } :=
  ((claim_C9_config_query ioW "gettempoffset").2.1 (by decide)).1

/-- C3 counterexample: on a handle whose sensor probe failed,
`scd4x,storesettings` nonetheless performs the `persistSettings` bus
operation and returns success — refuting the claim that every
`plugin_write` on an uninitialized handle is a bus-silent no-op
returning failure. -/
theorem claim_C3_counterexample :
    sBad.initialized = false ∧
    (plugin_write sBad ioW "scd4x,storesettings").success = true ∧
    (plugin_write sBad ioW "scd4x,storesettings").ops = [BusOp.persistSettings] := by
  refine ⟨by decide, by decide, by decide⟩

/-- C3 (amended): if the probe fails at construction the handle remains
uninitialized with nothing armed, and every `plugin_read` on an
uninitialized, unarmed handle is a bus-silent no-op returning failure;
`plugin_write`, however, is not gated on initialization:
`scd4x,storesettings` always invokes `persistSettings` and returns its
result. -/
theorem claim_C3_uninitialized_amended (sensorType altitude : Nat) (tempOffset : Rat)
    (autoCalibrate lowPowerMeasurement useSingleShot : Bool) (io : SensorIO)
    (hbegin : io.beginOk = false) :
    ((construct sensorType altitude tempOffset autoCalibrate lowPowerMeasurement
        useSingleShot true io).state.initialized = false ∧
      (construct sensorType altitude tempOffset autoCalibrate lowPowerMeasurement
        useSingleShot true io).state.mustRunFactoryReset = false ∧
      (construct sensorType altitude tempOffset autoCalibrate lowPowerMeasurement
        useSingleShot true io).state.mustRunSelfTest = false ∧
      (construct sensorType altitude tempOffset autoCalibrate lowPowerMeasurement
        useSingleShot true io).state.factoryResetCode = "" ∧
      (construct sensorType altitude tempOffset autoCalibrate lowPowerMeasurement
        useSingleShot true io).ops = [BusOp.beginSensor false autoCalibrate]) ∧
    (∀ (s : P135State) (io2 : SensorIO), s.initialized = false →
      s.mustRunFactoryReset = false → s.mustRunSelfTest = false →
      plugin_read s io2 =
        { success := false, state := s, ops := [], uservar := none, scheduled := [] }) ∧
    (∀ (s : P135State) (io2 : SensorIO) (str : String),
      parseStringF str 1 = "scd4x" → parseStringF str 2 = "storesettings" →
      plugin_write s io2 str =
        { success := io2.persistSettingsOk, state := s, ops := [BusOp.persistSettings],
          scheduled := [], logs := [] }) := by
  refine ⟨by simp [construct, hbegin], ?_, ?_⟩
  · intro s io2 hinit hfr hst
    cases s
    simp_all [plugin_read, readMaintenance]
  · intro s io2 str h1 h2
    simp [plugin_write, h1, h2]

/-- C3 witness: instantiated at the probe-failed fixture. -/
theorem claim_C3_witness :
    plugin_read sBad ioW =
      { success := false, state := sBad, ops := [], uservar := none, scheduled := [] } :=
  (claim_C3_uninitialized_amended 0 0 (mkRat 0 1) true false false ioBad rfl).2.1 sBad ioW
    (by decide) (by decide) (by decide)

/-- On an initialized handle, `plugin_read` performs only measurement
operations. -/
theorem plugin_read_init_ops_spec (s : P135State) (io : SensorIO)
    (hi : s.initialized = true) :
    ∀ op ∈ (plugin_read s io).ops,
      op = BusOp.measureSingleShot ∨ op = BusOp.readMeasurement ∨ op = BusOp.getCO2 ∨
      op = BusOp.getHumidity ∨ op = BusOp.getTemperature := by
  intro op hop
  cases h1 : s.useSingleShot <;> cases h2 : s.singleShotStarted <;>
    cases h3 : io.measureSingleShotOk <;> cases h4 : io.readMeasurementOk <;>
      simp [plugin_read, readGetMeasure, readShotOps, hi, h1, h2, h3, h4] at hop <;> tauto

/-- `plugin_write` performs at most one bus operation:
`persistSettings` or `stopPeriodicMeasurement`. -/
theorem plugin_write_ops_spec (s : P135State) (io : SensorIO) (str : String) :
    (plugin_write s io str).ops = [] ∨
    (plugin_write s io str).ops = [BusOp.persistSettings] ∨
    (plugin_write s io str).ops = [BusOp.stopPeriodicMeasurement] := by
  simp only [plugin_write]
  repeat' split
  all_goals simp

/-- `plugin_read` never changes the maintenance-gate fields. -/
theorem plugin_read_preserves_gate (s : P135State) (io : SensorIO) :
    (plugin_read s io).state.mustRunFactoryReset = s.mustRunFactoryReset ∧
    (plugin_read s io).state.mustRunSelfTest = s.mustRunSelfTest ∧
    (plugin_read s io).state.factoryResetCode = s.factoryResetCode := by
  by_cases hi : s.initialized = true
  · cases hc : (readGetMeasure s io && io.readMeasurementOk) <;>
      simp [plugin_read, hi, hc]
  · simp [plugin_read, hi]

/-- The four possible state outcomes of one `plugin_write`: untouched;
code cleared; a fresh code generated (only when none was on file); or
the maintenance operation armed (only on a case-sensitive code match
with `stopPeriodicMeasurement` succeeding). -/
theorem plugin_write_state_spec (s : P135State) (io : SensorIO) (str : String) :
    (plugin_write s io str).state = s ∨
    (plugin_write s io str).state = { s with factoryResetCode := "" } ∨
    (s.factoryResetCode = "" ∧ parseStringF str 1 = "scd4x" ∧
      (parseStringF str 2 = "factoryreset" ∨ parseStringF str 2 = "selftest") ∧
      (plugin_write s io str).state =
        { s with factoryResetCode :=
            deriveCode s.serialNumber (decide (parseStringF str 2 = "selftest")) }) ∨
    (s.factoryResetCode ≠ "" ∧ parseStringF str 1 = "scd4x" ∧
      (parseStringF str 2 = "factoryreset" ∨ parseStringF str 2 = "selftest") ∧
      parseStringKeepCaseF str 3 = s.factoryResetCode ∧ io.stopPeriodicOk = true ∧
      (plugin_write s io str).state =
        { s with
          initialized := false
          firstRead := true
          mustRunSelfTest :=
            if parseStringF str 2 = "selftest" then true else s.mustRunSelfTest
          mustRunFactoryReset :=
            if parseStringF str 2 = "selftest" then s.mustRunFactoryReset else true
          factoryResetCode := "" }) := by
  by_cases h1 : parseStringF str 1 = "scd4x"
  case neg => exact Or.inl (by simp [plugin_write, h1])
  by_cases hst : parseStringF str 2 = "selftest"
  · by_cases hc : s.factoryResetCode = ""
    · exact Or.inr (Or.inr (Or.inl ⟨hc, h1, Or.inr hst,
        by simp [plugin_write, h1, hst, hc]⟩))
    · by_cases hm : parseStringKeepCaseF str 3 = s.factoryResetCode
      · cases hstop : io.stopPeriodicOk
        · exact Or.inr (Or.inl (by simp [plugin_write, h1, hst, hc, hm, hstop]))
        · exact Or.inr (Or.inr (Or.inr ⟨hc, h1, Or.inr hst, hm, rfl,
            by simp [plugin_write, h1, hst, hc, hm, hstop]⟩))
      · exact Or.inr (Or.inl (by simp [plugin_write, h1, hst, hc, hm]))
  · by_cases hfr : parseStringF str 2 = "factoryreset"
    · by_cases hc : s.factoryResetCode = ""
      · exact Or.inr (Or.inr (Or.inl ⟨hc, h1, Or.inl hfr,
          by simp [plugin_write, h1, hfr, hst, hc]⟩))
      · by_cases hm : parseStringKeepCaseF str 3 = s.factoryResetCode
        · cases hstop : io.stopPeriodicOk
          · exact Or.inr (Or.inl (by simp [plugin_write, h1, hfr, hst, hc, hm, hstop]))
          · exact Or.inr (Or.inr (Or.inr ⟨hc, h1, Or.inl hfr, hm, rfl,
              by simp [plugin_write, h1, hfr, hst, hc, hm, hstop]⟩))
        · exact Or.inr (Or.inl (by simp [plugin_write, h1, hfr, hst, hc, hm]))
    · by_cases hsto : parseStringF str 2 = "storesettings"
      · exact Or.inl (by simp [plugin_write, h1, hsto])
      · exact Or.inl (by simp [plugin_write, h1, hsto, hfr, hst])

/-- A call that confirms the maintenance gate: a `scd4x,factoryreset` /
`scd4x,selftest` write whose case-kept third token equals the non-empty
stored code, with `stopPeriodicMeasurement` succeeding. -/
def confirmCall (s : P135State) (c : Call) : Prop :=
  ∃ io str, c = Call.write io str ∧ parseStringF str 1 = "scd4x" ∧
    (parseStringF str 2 = "factoryreset" ∨ parseStringF str 2 = "selftest") ∧
    s.factoryResetCode ≠ "" ∧ parseStringKeepCaseF str 3 = s.factoryResetCode ∧
    io.stopPeriodicOk = true

/-- A call that generates a confirmation code: a `scd4x,factoryreset` /
`scd4x,selftest` write while no code is on file. -/
def genCall (s : P135State) (c : Call) : Prop :=
  ∃ io str, c = Call.write io str ∧ parseStringF str 1 = "scd4x" ∧
    (parseStringF str 2 = "factoryreset" ∨ parseStringF str 2 = "selftest") ∧
    s.factoryResetCode = ""

/-- A pending maintenance flag can only be set by a confirming call. -/
theorem plugin_write_gate_set (s : P135State) (io : SensorIO) (str : String) :
    ((plugin_write s io str).state.mustRunFactoryReset = true →
      s.mustRunFactoryReset = true ∨ confirmCall s (Call.write io str)) ∧
    ((plugin_write s io str).state.mustRunSelfTest = true →
      s.mustRunSelfTest = true ∨ confirmCall s (Call.write io str)) := by
  rcases plugin_write_state_spec s io str with hs | hs | ⟨hc, h1, hsub, hs⟩ |
    ⟨hc, h1, hsub, hm, hstop, hs⟩
  · rw [hs]; exact ⟨Or.inl, Or.inl⟩
  · rw [hs]; exact ⟨Or.inl, Or.inl⟩
  · rw [hs]; exact ⟨Or.inl, Or.inl⟩
  · exact ⟨fun _ => Or.inr ⟨io, str, rfl, h1, hsub, hc, hm, hstop⟩,
      fun _ => Or.inr ⟨io, str, rfl, h1, hsub, hc, hm, hstop⟩⟩

/-- One `plugin_write` either keeps the stored code, clears it, or — as
a generating call — installs a fresh one. -/
theorem plugin_write_code_cases (s : P135State) (io : SensorIO) (str : String) :
    (plugin_write s io str).state.factoryResetCode = s.factoryResetCode ∨
    (plugin_write s io str).state.factoryResetCode = "" ∨
    genCall s (Call.write io str) := by
  rcases plugin_write_state_spec s io str with hs | hs | ⟨hc, h1, hsub, hs⟩ |
    ⟨hc, h1, hsub, hm, hstop, hs⟩
  · rw [hs]; exact Or.inl rfl
  · rw [hs]; exact Or.inr (Or.inl rfl)
  · exact Or.inr (Or.inr ⟨io, str, rfl, h1, hsub, hc⟩)
  · rw [hs]; exact Or.inr (Or.inl rfl)

/-- A confirming write performs exactly the `stopPeriodicMeasurement`
bus operation. -/
theorem confirm_write_ops (s : P135State) (io : SensorIO) (str : String)
    (h1 : parseStringF str 1 = "scd4x")
    (hsub : parseStringF str 2 = "factoryreset" ∨ parseStringF str 2 = "selftest")
    (hc : s.factoryResetCode ≠ "")
    (hm : parseStringKeepCaseF str 3 = s.factoryResetCode) :
    (plugin_write s io str).ops = [BusOp.stopPeriodicMeasurement] := by
  rcases hsub with h2 | h2 <;> cases hstop : io.stopPeriodicOk <;>
    simp [plugin_write, h1, h2, hc, hm, hstop]

/-- Lifting `plugin_write_gate_set` / `plugin_read_preserves_gate` to
one step: the factory-reset flag becomes true only via a confirming
call. -/
theorem stepState_FR_set (s : P135State) (c : Call)
    (h : (stepState s c).mustRunFactoryReset = true) :
    s.mustRunFactoryReset = true ∨ confirmCall s c := by
  cases c with
  | read io =>
    simp only [stepState] at h
    rw [(plugin_read_preserves_gate s io).1] at h
    exact Or.inl h
  | write io str => exact (plugin_write_gate_set s io str).1 h

/-- The self-test flag becomes true only via a confirming call. -/
theorem stepState_ST_set (s : P135State) (c : Call)
    (h : (stepState s c).mustRunSelfTest = true) :
    s.mustRunSelfTest = true ∨ confirmCall s c := by
  cases c with
  | read io =>
    simp only [stepState] at h
    rw [(plugin_read_preserves_gate s io).2.1] at h
    exact Or.inl h
  | write io str => exact (plugin_write_gate_set s io str).2 h

/-- One step keeps the stored code, clears it, or is a generating call. -/
theorem stepState_code_cases (s : P135State) (c : Call) :
    (stepState s c).factoryResetCode = s.factoryResetCode ∨
    (stepState s c).factoryResetCode = "" ∨
    genCall s c := by
  cases c with
  | read io => exact Or.inl (plugin_read_preserves_gate s io).2.2
  | write io str => exact plugin_write_code_cases s io str

/-- `performFactoryReset` is emitted by a step only when it is armed. -/
theorem stepOps_FR_armed (s : P135State) (c : Call)
    (h : BusOp.performFactoryReset ∈ stepOps s c) :
    s.mustRunFactoryReset = true := by
  cases c with
  | read io =>
    simp only [stepOps] at h
    by_cases hi : s.initialized = true
    · rcases plugin_read_init_ops_spec s io hi _ h with h' | h' | h' | h' | h' <;> simp at h'
    · simp [plugin_read, hi] at h
      exact readMaintenance_factoryReset_armed s io h
  | write io str =>
    exfalso
    simp only [stepOps] at h
    rcases plugin_write_ops_spec s io str with ho | ho | ho <;> rw [ho] at h <;> simp at h

/-- `performSelfTest` is emitted by a step only when it is armed. -/
theorem stepOps_ST_armed (s : P135State) (c : Call)
    (h : BusOp.performSelfTest ∈ stepOps s c) :
    s.mustRunSelfTest = true := by
  cases c with
  | read io =>
    simp only [stepOps] at h
    by_cases hi : s.initialized = true
    · rcases plugin_read_init_ops_spec s io hi _ h with h' | h' | h' | h' | h' <;> simp at h'
    · simp [plugin_read, hi] at h
      exact readMaintenance_selfTest_armed s io h
  | write io str =>
    exfalso
    simp only [stepOps] at h
    rcases plugin_write_ops_spec s io str with ho | ho | ho <;> rw [ho] at h <;> simp at h

/-- Unrolling one step of a trace. -/
theorem runN_succ (s0 : P135State) (cs : List Call) (n : Nat) (h : n < cs.length) :
    runN s0 cs (n + 1) = stepState (runN s0 cs n) (cs.get ⟨n, h⟩) := by
  unfold runN
  rw [List.take_succ, List.foldl_append, List.getElem?_eq_getElem h]
  simp

/-- Past the end of the trace, `runN` is constant. -/
theorem runN_stable (s0 : P135State) (cs : List Call) (n : Nat) (h : cs.length ≤ n) :
    runN s0 cs (n + 1) = runN s0 cs n := by
  unfold runN
  rw [List.take_of_length_le h, List.take_of_length_le (Nat.le_succ_of_le h)]

/-- A trace starts at its initial state. -/
theorem runN_zero (s0 : P135State) (cs : List Call) : runN s0 cs 0 = s0 := rfl

/-- Invariant: a pending maintenance flag can be true only after a
confirming call occurred earlier in the trace. -/
theorem gateFlag_confirmed (s0 : P135State) (cs : List Call)
    (h0fr : s0.mustRunFactoryReset = false) (h0st : s0.mustRunSelfTest = false) :
    ∀ n, ((runN s0 cs n).mustRunFactoryReset = true ∨
        (runN s0 cs n).mustRunSelfTest = true) →
      ∃ j, ∃ hj : j < cs.length, j < n ∧
        confirmCall (runN s0 cs j) (cs.get ⟨j, hj⟩) := by
  intro n
  induction n with
  | zero =>
    intro h
    rw [show runN s0 cs 0 = s0 from rfl, h0fr, h0st] at h
    simp at h
  | succ n ih =>
    intro h
    by_cases hn : n < cs.length
    · rw [runN_succ s0 cs n hn] at h
      have hcases : (runN s0 cs n).mustRunFactoryReset = true ∨
          (runN s0 cs n).mustRunSelfTest = true ∨
          confirmCall (runN s0 cs n) (cs.get ⟨n, hn⟩) := by
        rcases h with h | h
        · rcases stepState_FR_set _ _ h with h' | h'
          · exact Or.inl h'
          · exact Or.inr (Or.inr h')
        · rcases stepState_ST_set _ _ h with h' | h'
          · exact Or.inr (Or.inl h')
          · exact Or.inr (Or.inr h')
      rcases hcases with h' | h' | h'
      · obtain ⟨j, hj, hjn, hcf⟩ := ih (Or.inl h')
        exact ⟨j, hj, Nat.lt_succ_of_lt hjn, hcf⟩
      · obtain ⟨j, hj, hjn, hcf⟩ := ih (Or.inr h')
        exact ⟨j, hj, Nat.lt_succ_of_lt hjn, hcf⟩
      · exact ⟨n, hn, Nat.lt_succ_self n, h'⟩
    · rw [runN_stable s0 cs n (Nat.le_of_not_lt hn)] at h
      obtain ⟨j, hj, hjn, hcf⟩ := ih h
      exact ⟨j, hj, Nat.lt_succ_of_lt hjn, hcf⟩

/-- Invariant: a non-empty stored code was installed by a generating
call earlier in the trace and preserved unchanged since. -/
theorem code_provenance (s0 : P135State) (cs : List Call)
    (h0 : s0.factoryResetCode = "") :
    ∀ n, (runN s0 cs n).factoryResetCode ≠ "" →
      ∃ k, ∃ hk : k < cs.length, k < n ∧
        genCall (runN s0 cs k) (cs.get ⟨k, hk⟩) ∧
        (runN s0 cs (k + 1)).factoryResetCode = (runN s0 cs n).factoryResetCode := by
  intro n
  induction n with
  | zero =>
    intro h
    exact absurd h0 h
  | succ n ih =>
    intro h
    by_cases hn : n < cs.length
    · have hs := runN_succ s0 cs n hn
      rcases stepState_code_cases (runN s0 cs n) (cs.get ⟨n, hn⟩) with hcc | hcc | hcc
      · have hne : (runN s0 cs n).factoryResetCode ≠ "" := by
          rw [hs, hcc] at h
          exact h
        obtain ⟨k, hk, hkn, hgen, heq⟩ := ih hne
        refine ⟨k, hk, Nat.lt_succ_of_lt hkn, hgen, ?_⟩
        rw [hs, hcc]
        exact heq
      · rw [hs] at h
        exact absurd hcc h
      · exact ⟨n, hn, Nat.lt_succ_self n, hcc, rfl⟩
    · rw [runN_stable s0 cs n (Nat.le_of_not_lt hn)] at h
      obtain ⟨k, hk, hkn, hgen, heq⟩ := ih h
      refine ⟨k, hk, Nat.lt_succ_of_lt hkn, hgen, ?_⟩
      rw [runN_stable s0 cs n (Nat.le_of_not_lt hn)]
      exact heq

/-- C4: in every trace of `plugin_read` / `plugin_write` calls from a
freshly constructed state (nothing armed, no code on file), a step can
emit the `performFactoryReset` or `performSelfTest` bus operation only
if an earlier step was a confirming write — a `scd4x` maintenance
command whose case-kept third token equalled the then-stored non-empty
code, whose `stopPeriodicMeasurement` succeeded (and was this step's
only bus operation) — and the code it matched was installed by a yet
earlier generating call and preserved unchanged in between. -/
theorem claim_C4_destructive_requires_confirmation (s0 : P135State) (cs : List Call)
    (i : Nat) (hi : i < cs.length)
    (h0fr : s0.mustRunFactoryReset = false) (h0st : s0.mustRunSelfTest = false)
    (h0code : s0.factoryResetCode = "")
    (hop : BusOp.performFactoryReset ∈ stepOps (runN s0 cs i) (cs.get ⟨i, hi⟩) ∨
      BusOp.performSelfTest ∈ stepOps (runN s0 cs i) (cs.get ⟨i, hi⟩)) :
    ∃ j, ∃ hj : j < cs.length, j < i ∧
      (∃ io str, cs.get ⟨j, hj⟩ = Call.write io str ∧
        parseStringF str 1 = "scd4x" ∧
        (parseStringF str 2 = "factoryreset" ∨ parseStringF str 2 = "selftest") ∧
        (runN s0 cs j).factoryResetCode ≠ "" ∧
        parseStringKeepCaseF str 3 = (runN s0 cs j).factoryResetCode ∧
        io.stopPeriodicOk = true ∧
        stepOps (runN s0 cs j) (cs.get ⟨j, hj⟩) = [BusOp.stopPeriodicMeasurement]) ∧
      (∃ k, ∃ hk : k < cs.length, k < j ∧
        genCall (runN s0 cs k) (cs.get ⟨k, hk⟩) ∧
        (runN s0 cs (k + 1)).factoryResetCode = (runN s0 cs j).factoryResetCode) := by
  have hflag : (runN s0 cs i).mustRunFactoryReset = true ∨
      (runN s0 cs i).mustRunSelfTest = true := by
    rcases hop with h | h
    · exact Or.inl (stepOps_FR_armed _ _ h)
    · exact Or.inr (stepOps_ST_armed _ _ h)
  obtain ⟨j, hj, hji, hcf⟩ := gateFlag_confirmed s0 cs h0fr h0st i hflag
  obtain ⟨io, str, hcw, h1, hsub, hcne, hm, hstop⟩ := hcf
  have hops : stepOps (runN s0 cs j) (cs.get ⟨j, hj⟩) = [BusOp.stopPeriodicMeasurement] := by
    rw [hcw]
    simp only [stepOps]
    exact confirm_write_ops _ io str h1 hsub hcne hm
  obtain ⟨k, hk, hkj, hgen, heq⟩ := code_provenance s0 cs h0code j hcne
  exact ⟨j, hj, hji, ⟨io, str, hcw, h1, hsub, hcne, hm, hstop, hops⟩,
    k, hk, hkj, hgen, heq⟩

/-- The concrete trace of the C4 witness: generate a code, confirm it,
then read (which performs the armed factory reset). -/
def csW : List Call :=
  [Call.write ioW "scd4x,factoryreset",
   Call.write ioW "scd4x,factoryreset,Scd4x2022reseT",
   Call.read ioW]

/-- C4 witness: on the trace `csW` the third step emits
`performFactoryReset`, and the theorem produces the confirming and
generating steps before it. -/
theorem claim_C4_witness :
    ∃ j, ∃ hj : j < csW.length, j < 2 ∧
      (∃ io str, csW.get ⟨j, hj⟩ = Call.write io str ∧
        parseStringF str 1 = "scd4x" ∧
        (parseStringF str 2 = "factoryreset" ∨ parseStringF str 2 = "selftest") ∧
        (runN sW csW j).factoryResetCode ≠ "" ∧
        parseStringKeepCaseF str 3 = (runN sW csW j).factoryResetCode ∧
        io.stopPeriodicOk = true ∧
        stepOps (runN sW csW j) (csW.get ⟨j, hj⟩) = [BusOp.stopPeriodicMeasurement]) ∧
      (∃ k, ∃ hk : k < csW.length, k < j ∧
        genCall (runN sW csW k) (csW.get ⟨k, hk⟩) ∧
        (runN sW csW (k + 1)).factoryResetCode = (runN sW csW j).factoryResetCode) :=
  claim_C4_destructive_requires_confirmation sW csW 2 (by decide) (by decide) (by decide)
    (by decide) (Or.inl (by decide))

end P135
